import Mathlib

/-!
Verification of the booking-and-payment backend's helper functions and
webhook-driven booking status machine.

JavaScript strings are modelled as lists of characters (`JSStr`), so that
the truthiness test, `startsWith` and `substring` semantics of the source
can be reproduced exactly and reasoned about by structural induction.
-/

/-- JavaScript strings, modelled as lists of characters. -/
abbrev JSStr := List Char

/-- The character list of the literal string constant used by the code. -/
def bearer : JSStr := "Bearer".toList

/-- JavaScript `String.prototype.startsWith`: `jsStartsWith s p` is true when
`p` occurs at the start of `s`, compared character by character,
case-sensitively and with no trimming. -/
def jsStartsWith : JSStr → JSStr → Bool
  | _, [] => true
  | [], _ :: _ => false
  | c :: cs, d :: ds => c == d && jsStartsWith cs ds

/-- JavaScript `String.prototype.substring(a, b)`: both indices are clamped
to `[0, length]` and swapped when out of order, then the characters between
them are returned. -/
def jsSubstring (s : JSStr) (a b : Nat) : JSStr :=
  let x := min a s.length
  let y := min b s.length
  (s.drop (min x y)).take (max x y - min x y)

/-- JavaScript truthiness of an optional string: `undefined`/`null` and the
empty string are falsy, every other string is truthy. -/
def jsTruthy : Option JSStr → Bool
  | none => false
  | some s => !s.isEmpty

/-- `getTokenFromAuthorizationString` from the auth helpers:
`if (authorizationString && authorizationString.startsWith('Bearer'))
   return authorizationString.substring(7, authorizationString.length);
 else return null;`. The argument is `Option JSStr` because the header may
be absent (`undefined`). -/
def getTokenFromAuthorizationString (auth : Option JSStr) : Option JSStr :=
  match auth with
  | none => none
  | some s =>
      if !s.isEmpty && jsStartsWith s bearer then
        some (jsSubstring s 7 s.length)
      else none

/-- The user profile fields consulted by `checkUserHaveEnoughInfo`; each is
an optional (possibly empty) string, as in the entity. -/
structure User where
  name : Option JSStr
  dateOfBirth : Option JSStr
  phoneNumber : Option JSStr
deriving DecidableEq, Repr

/-- `checkUserHaveEnoughInfo` from the auth helpers:
`!!(user && user.dateOfBirth && user.phoneNumber && user.name)`. -/
def checkUserHaveEnoughInfo (user : Option User) : Bool :=
  match user with
  | none => false
  | some u => jsTruthy u.dateOfBirth && jsTruthy u.phoneNumber && jsTruthy u.name

/-! Support lemmas about the JavaScript string primitives. -/

theorem jsStartsWith_length_le (p : JSStr) :
    ∀ s : JSStr, jsStartsWith s p = true → p.length ≤ s.length := by
  induction p with
  | nil => intro s _; simp
  | cons d ds ih =>
      intro s h
      cases s with
      | nil => simp [jsStartsWith] at h
      | cons c cs =>
          simp only [jsStartsWith, Bool.and_eq_true] at h
          have := ih cs h.2
          simpa using Nat.succ_le_succ this

theorem jsSubstring_to_end (s : JSStr) (a : Nat) :
    jsSubstring s a s.length = s.drop a := by
  unfold jsSubstring
  rcases Nat.le_total s.length a with h | h
  · have hx : min a s.length = s.length := Nat.min_eq_right h
    have hd : s.drop a = [] := List.drop_eq_nil_of_le h
    simp [hx, hd]
  · have hx : min a s.length = a := Nat.min_eq_left h
    have hy : min s.length s.length = s.length := Nat.min_self _
    have hxy : min a s.length ≤ s.length := Nat.min_le_right _ _
    simp only [hx, hy, Nat.min_eq_left h, Nat.max_eq_right h]
    have : (s.drop a).length = s.length - a := List.length_drop a s
    calc (s.drop a).take (s.length - a)
        = (s.drop a).take (s.drop a).length := by rw [this]
      _ = s.drop a := List.take_length _

theorem jsStartsWith_bearer_ne_nil (s : JSStr) (h : jsStartsWith s bearer = true) :
    s.isEmpty = false := by
  have hlen := jsStartsWith_length_le bearer s h
  cases s with
  | nil => simp [bearer] at hlen
  | cons c cs => simp

theorem jsStartsWith_false_of_not (s p : JSStr) (h : ¬ jsStartsWith s p = true) :
    jsStartsWith s p = false := by
  cases hb : jsStartsWith s p
  · rfl
  · exact absurd hb h

/-- Closed form of the token extractor: the truthiness test is subsumed by
the `startsWith` test (an empty string cannot start with `Bearer`), and
`substring(7, length)` is `drop 7`. -/
theorem getToken_closed_form (h : Option JSStr) :
    getTokenFromAuthorizationString h =
      match h with
      | none => none
      | some s => if jsStartsWith s bearer = true then some (s.drop 7) else none := by
  cases h with
  | none => rfl
  | some s =>
      show (if !s.isEmpty && jsStartsWith s bearer then some (jsSubstring s 7 s.length)
            else none) = _
      by_cases hp : jsStartsWith s bearer = true
      · have hne := jsStartsWith_bearer_ne_nil s hp
        simp [hp, hne, jsSubstring_to_end]
      · simp [jsStartsWith_false_of_not s bearer hp]

theorem jsTruthy_iff (o : Option JSStr) :
    jsTruthy o = true ↔ ∃ s, o = some s ∧ s ≠ [] := by
  cases o with
  | none => simp [jsTruthy]
  | some s => simp [jsTruthy]

/-- C7: the claim demands that the prefix be `Bearer` followed by a space;
the code only tests `startsWith('Bearer')`. On `"Bearerabc123"`, which does
not start with `"Bearer "`, the claim predicts `null` but the function
returns `"bc123"` (the substring from index 7). -/
theorem getToken_space_counterexample :
    jsStartsWith ("Bearerabc123".toList) ("Bearer ".toList) = false ∧
    getTokenFromAuthorizationString (some ("Bearerabc123".toList)) =
      some ("bc123".toList) := by
  constructor
  · decide
  · decide

/-- C7 (amended): if the header is present and begins with the literal
`Bearer` (a following space is NOT required), the function returns the
substring of the header starting after its 7th character (empty when the
header is shorter); otherwise it returns null. The match is exact and
case-sensitive, with no trimming. -/
theorem getToken_amended (h : Option JSStr) :
    getTokenFromAuthorizationString h =
      match h with
      | none => none
      | some s => if jsStartsWith s bearer = true then some (s.drop 7) else none :=
  getToken_closed_form h

theorem getToken_amended_witness :
    getTokenFromAuthorizationString (some ("Bearerabc".toList)) =
      (if jsStartsWith ("Bearerabc".toList) bearer = true
       then some (("Bearerabc".toList).drop 7) else none) :=
  getToken_amended (some ("Bearerabc".toList))

/-- C8: the extractor returns a token iff the header starts with `Bearer`,
in which case the token is the substring after the first 7 characters;
`"Bearer abc123"` maps to `"abc123"`, `"Basic abc"` maps to null, and an
absent header maps to null. -/
theorem getToken_spec :
    (∀ s : JSStr,
      (getTokenFromAuthorizationString (some s)).isSome = jsStartsWith s bearer)
    ∧ (∀ s : JSStr, jsStartsWith s bearer = true →
        getTokenFromAuthorizationString (some s) = some (s.drop 7))
    ∧ getTokenFromAuthorizationString none = none
    ∧ getTokenFromAuthorizationString (some ("Bearer abc123".toList)) =
        some ("abc123".toList)
    ∧ getTokenFromAuthorizationString (some ("Basic abc".toList)) = none := by
  refine ⟨?_, ?_, rfl, by decide, by decide⟩
  · intro s
    rw [getToken_closed_form (some s)]
    by_cases hp : jsStartsWith s bearer = true
    · simp [hp]
    · simp [jsStartsWith_false_of_not s bearer hp]
  · intro s hp
    rw [getToken_closed_form (some s)]
    simp [hp]

theorem getToken_spec_witness :
    getTokenFromAuthorizationString (some ("Bearer xyz".toList)) =
      some (("Bearer xyz".toList).drop 7) :=
  getToken_spec.2.1 ("Bearer xyz".toList) (by decide)

/-- C9: the completeness check returns true iff the user record is non-null
and its `name`, `dateOfBirth` and `phoneNumber` fields are all present and
non-empty; it returns false for a null record or any null/empty field. -/
theorem checkUserHaveEnoughInfo_spec (u : Option User) :
    checkUserHaveEnoughInfo u = true ↔
      ∃ v : User, u = some v ∧
        (∃ s, v.name = some s ∧ s ≠ []) ∧
        (∃ s, v.dateOfBirth = some s ∧ s ≠ []) ∧
        (∃ s, v.phoneNumber = some s ∧ s ≠ []) := by
  cases u with
  | none => simp [checkUserHaveEnoughInfo]
  | some v =>
      constructor
      · intro h
        have h' : (jsTruthy v.dateOfBirth = true ∧ jsTruthy v.phoneNumber = true) ∧
            jsTruthy v.name = true := by
          simpa [checkUserHaveEnoughInfo, Bool.and_eq_true] using h
        obtain ⟨⟨hd, hp⟩, hn⟩ := h'
        exact ⟨v, rfl, (jsTruthy_iff v.name).mp hn,
          (jsTruthy_iff v.dateOfBirth).mp hd, (jsTruthy_iff v.phoneNumber).mp hp⟩
      · rintro ⟨w, hw, hn, hd, hp⟩
        cases hw
        have hd' := (jsTruthy_iff v.dateOfBirth).mpr hd
        have hp' := (jsTruthy_iff v.phoneNumber).mpr hp
        have hn' := (jsTruthy_iff v.name).mpr hn
        simp [checkUserHaveEnoughInfo, Bool.and_eq_true, hd', hp', hn']

theorem checkUserHaveEnoughInfo_spec_witness :
    checkUserHaveEnoughInfo
      (some { name := some ['a'], dateOfBirth := some ['b'],
              phoneNumber := some ['c'] }) = true :=
  (checkUserHaveEnoughInfo_spec _).mpr
    ⟨_, rfl, ⟨['a'], rfl, by decide⟩, ⟨['b'], rfl, by decide⟩,
      ⟨['c'], rfl, by decide⟩⟩

/-- C10: on the six-character input `Bearer` (no trailing space, no token)
the prefix test accepts and `substring(7, 6)` yields the empty string, so
the function returns the empty string rather than null. -/
theorem getToken_bare_bearer :
    jsStartsWith ("Bearer".toList) bearer = true ∧
    jsSubstring ("Bearer".toList) 7 ("Bearer".toList).length = [] ∧
    getTokenFromAuthorizationString (some ("Bearer".toList)) = some [] := by
  refine ⟨by decide, by decide, by decide⟩

/-!
The payment service, booking service and gateway wrapper themselves are not
among the provided sources (only their test suite is), so the following
definitions are modelled from the specification's description of the
booking-status state machine, the checkout-session flow and the webhook
dispatch.
-/

/-- The `bookingStatus` enum of the booking entity: PENDING is initial,
SUCCESS and FAIL are terminal. -/
inductive bookingStatus where
  | PENDING
  | SUCCESS
  | FAIL
deriving DecidableEq, Repr

/-- A booking record: car, user, pickup location, time window, amount, and
a lifecycle status. Identifiers and timestamps are modelled as naturals. -/
structure Booking where
  id : Nat
  carId : Nat
  userId : Nat
  pickUpLocationId : Nat
  returnDateTime : Nat
  receivedDateTime : Nat
  amount : Nat
  status : bookingStatus
deriving DecidableEq, Repr

/-- A payment record linking a booking to the gateway session identifier. -/
structure Payment where
  bookingId : Nat
  sessionId : Nat
deriving DecidableEq, Repr

/-- Modelled from the spec: the minimal internal webhook event shape,
a kind discriminator (success-type, failure-type, or any other event type)
and the `metadata.bookingId` correlation field. -/
inductive EventKind where
  | success
  | failure
  | other
deriving DecidableEq, Repr

structure WebhookEvent where
  kind : EventKind
  bookingId : Nat
deriving DecidableEq, Repr

/-- Modelled from the spec: a webhook delivery carries a payload (already
parsed here into the minimal event) and a signature header. -/
structure WebhookRequest where
  event : WebhookEvent
  signatureHeader : Nat
deriving DecidableEq, Repr

/-- The error surfaced to the HTTP layer on signature mismatch. -/
inductive HandlerError where
  | BadRequestException
deriving DecidableEq, Repr

/-- Modelled from the spec: the gateway wrapper's verification entry point
(`constructEvent`) forwards payload, signature header and configured secret
to the vendor primitive and returns the parsed event, or throws on
mismatch. The opaque cryptographic check is modelled as equality of the
delivered signature with the configured secret. -/
def constructEvent (secret : Nat) (req : WebhookRequest) :
    Except HandlerError WebhookEvent :=
  if req.signatureHeader = secret then Except.ok req.event
  else Except.error HandlerError.BadRequestException

/-- Look up a booking by id in the stored booking list (the booking
service's lookup, first match wins). -/
def findBooking : List Booking → Nat → Option Booking
  | [], _ => none
  | b :: bs, bid => if b.id == bid then some b else findBooking bs bid

/-- Update the status of every stored booking whose id matches (the
booking service's status update). -/
def setBookingStatus : List Booking → Nat → bookingStatus → List Booking
  | [], _, _ => []
  | b :: bs, bid, st =>
      (if b.id == bid then { b with status := st } else b) ::
        setBookingStatus bs bid st

/-- SUCCESS and FAIL are the terminal statuses. -/
def isTerminal : bookingStatus → Bool
  | bookingStatus.PENDING => false
  | bookingStatus.SUCCESS => true
  | bookingStatus.FAIL => true

/-- Modelled from the spec: `handleIntentWebhook` of the payment service.
Verify the signature (400-class error on mismatch, no mutation); dispatch
on the event kind; look up the booking by the correlation id; a missing
booking is acknowledged without mutation; a booking already terminal is
left unchanged; otherwise a success-type event sets SUCCESS and a
failure-type event sets FAIL; any other event type is a no-op. -/
def handleIntentWebhook (secret : Nat) (store : List Booking)
    (req : WebhookRequest) : Except HandlerError (List Booking) :=
  match constructEvent secret req with
  | Except.error e => Except.error e
  | Except.ok ev =>
      match ev.kind with
      | EventKind.other => Except.ok store
      | EventKind.success =>
          match findBooking store ev.bookingId with
          | none => Except.ok store
          | some b =>
              if isTerminal b.status then Except.ok store
              else Except.ok (setBookingStatus store ev.bookingId
                bookingStatus.SUCCESS)
      | EventKind.failure =>
          match findBooking store ev.bookingId with
          | none => Except.ok store
          | some b =>
              if isTerminal b.status then Except.ok store
              else Except.ok (setBookingStatus store ev.bookingId
                bookingStatus.FAIL)

/-- The booking list an HTTP caller observes after the handler returns:
the returned list on success, the unchanged stored list when the handler
throws. -/
def postState (store : List Booking)
    (r : Except HandlerError (List Booking)) : List Booking :=
  match r with
  | Except.ok s => s
  | Except.error _ => store

/-- The booking parameters of a checkout request. -/
structure BookingRequest where
  userId : Nat
  carId : Nat
  pickUpLocationId : Nat
  returnDateTime : Nat
  receivedDateTime : Nat
  amount : Nat
deriving DecidableEq, Repr

/-- The persistent state touched by checkout creation. -/
structure CheckoutResult where
  bookings : List Booking
  payments : List Payment
  sessionUrl : Nat
deriving DecidableEq, Repr

/-- Modelled from the spec: `createCheckoutSession` of the payment service.
If the requesting user's profile fails the completeness check the
operation is rejected with a client error before any persistence;
otherwise a Booking is created with status PENDING echoing the requested
car, user, times, amount and pickup location, a checkout session is
requested from the gateway (modelled as the opaque `sessionId`), a Payment
record linking the session to the booking is persisted, and the session
reference is returned. -/
def createCheckoutSession (bookings : List Booking) (payments : List Payment)
    (newBookingId sessionId : Nat) (req : BookingRequest)
    (user : Option User) : Except HandlerError CheckoutResult :=
  if checkUserHaveEnoughInfo user then
    let b : Booking :=
      { id := newBookingId, carId := req.carId, userId := req.userId,
        pickUpLocationId := req.pickUpLocationId,
        returnDateTime := req.returnDateTime,
        receivedDateTime := req.receivedDateTime,
        amount := req.amount, status := bookingStatus.PENDING }
    Except.ok
      { bookings := bookings ++ [b],
        payments := payments ++ [{ bookingId := newBookingId,
                                   sessionId := sessionId }],
        sessionUrl := sessionId }
  else Except.error HandlerError.BadRequestException

/-! Lemmas about booking lookup and status update. -/

theorem findBooking_set_same (store : List Booking) (bid : Nat)
    (st : bookingStatus) :
    findBooking (setBookingStatus store bid st) bid =
      Option.map (fun b => { b with status := st }) (findBooking store bid) := by
  induction store with
  | nil => rfl
  | cons b bs ih =>
      by_cases hb : (b.id == bid) = true
      · simp [findBooking, setBookingStatus, hb]
      · simp [findBooking, setBookingStatus, hb, ih]

theorem findBooking_set_other (store : List Booking) (bid bid' : Nat)
    (st : bookingStatus) (hne : bid' ≠ bid) :
    findBooking (setBookingStatus store bid st) bid' = findBooking store bid' := by
  induction store with
  | nil => rfl
  | cons b bs ih =>
      by_cases hb : (b.id == bid) = true
      · have hbid : b.id = bid := by simpa using hb
        have hq : (b.id == bid') = false := by
          simp [hbid]
          exact fun h => hne h.symm
        simp [findBooking, setBookingStatus, hb, hq, ih]
      · by_cases hq : (b.id == bid') = true
        · simp [findBooking, setBookingStatus, hb, hq]
        · simp [findBooking, setBookingStatus, hb, hq, ih]

/-- C1: handling a verified success-type event for a PENDING booking sets
its status to SUCCESS, and re-delivering the same event leaves the store
unchanged (the transition is idempotent). -/
theorem handleIntentWebhook_success_idempotent (secret : Nat)
    (store : List Booking) (req : WebhookRequest) (b : Booking)
    (hsig : req.signatureHeader = secret)
    (hkind : req.event.kind = EventKind.success)
    (hfind : findBooking store req.event.bookingId = some b)
    (hst : b.status = bookingStatus.PENDING) :
    ∃ store',
      handleIntentWebhook secret store req = Except.ok store' ∧
      (∃ b', findBooking store' req.event.bookingId = some b' ∧
        b'.status = bookingStatus.SUCCESS) ∧
      handleIntentWebhook secret store' req = Except.ok store' := by
  have hce : constructEvent secret req = Except.ok req.event := by
    simp [constructEvent, hsig]
  have hterm : isTerminal b.status = false := by rw [hst]; rfl
  refine ⟨setBookingStatus store req.event.bookingId bookingStatus.SUCCESS,
    ?_, ?_, ?_⟩
  · simp [handleIntentWebhook, hce, hkind, hfind, hterm]
  · rw [findBooking_set_same, hfind]
    exact ⟨_, rfl, rfl⟩
  · have hfind' : findBooking
        (setBookingStatus store req.event.bookingId bookingStatus.SUCCESS)
        req.event.bookingId = some { b with status := bookingStatus.SUCCESS } := by
      rw [findBooking_set_same, hfind]; rfl
    simp [handleIntentWebhook, hce, hkind, hfind', isTerminal]

/-- C2: a booking already in a terminal status is not changed by any
webhook delivery, whatever its signature, kind or correlation id. -/
theorem terminal_booking_unchanged (secret : Nat) (store : List Booking)
    (req : WebhookRequest) (bid : Nat) (b : Booking)
    (hfind : findBooking store bid = some b)
    (hterm : isTerminal b.status = true) :
    findBooking (postState store (handleIntentWebhook secret store req)) bid =
      some b := by
  by_cases hsig : req.signatureHeader = secret
  · have hce : constructEvent secret req = Except.ok req.event := by
      simp [constructEvent, hsig]
    cases hk : req.event.kind with
    | other => simp [handleIntentWebhook, hce, hk, postState, hfind]
    | success =>
        cases hf : findBooking store req.event.bookingId with
        | none => simp [handleIntentWebhook, hce, hk, hf, postState, hfind]
        | some b0 =>
            by_cases ht : isTerminal b0.status = true
            · simp [handleIntentWebhook, hce, hk, hf, ht, postState, hfind]
            · have ht' : isTerminal b0.status = false := by
                cases hv : isTerminal b0.status
                · rfl
                · exact absurd hv ht
              have hne : bid ≠ req.event.bookingId := by
                intro he
                rw [he] at hfind
                rw [hfind] at hf
                injection hf with hbb
                exact ht (hbb ▸ hterm)
              simp [handleIntentWebhook, hce, hk, hf, ht', postState]
              rw [findBooking_set_other store req.event.bookingId bid _ hne]
              exact hfind
    | failure =>
        cases hf : findBooking store req.event.bookingId with
        | none => simp [handleIntentWebhook, hce, hk, hf, postState, hfind]
        | some b0 =>
            by_cases ht : isTerminal b0.status = true
            · simp [handleIntentWebhook, hce, hk, hf, ht, postState, hfind]
            · have ht' : isTerminal b0.status = false := by
                cases hv : isTerminal b0.status
                · rfl
                · exact absurd hv ht
              have hne : bid ≠ req.event.bookingId := by
                intro he
                rw [he] at hfind
                rw [hfind] at hf
                injection hf with hbb
                exact ht (hbb ▸ hterm)
              simp [handleIntentWebhook, hce, hk, hf, ht', postState]
              rw [findBooking_set_other store req.event.bookingId bid _ hne]
              exact hfind
  · have hce : constructEvent secret req =
        Except.error HandlerError.BadRequestException := by
      simp [constructEvent, hsig]
    simp [handleIntentWebhook, hce, postState, hfind]

/-- C3: handling a verified failure-type event for a PENDING booking sets
its status to FAIL. -/
theorem handleIntentWebhook_failure_sets_fail (secret : Nat)
    (store : List Booking) (req : WebhookRequest) (b : Booking)
    (hsig : req.signatureHeader = secret)
    (hkind : req.event.kind = EventKind.failure)
    (hfind : findBooking store req.event.bookingId = some b)
    (hst : b.status = bookingStatus.PENDING) :
    ∃ store',
      handleIntentWebhook secret store req = Except.ok store' ∧
      ∃ b', findBooking store' req.event.bookingId = some b' ∧
        b'.status = bookingStatus.FAIL := by
  have hce : constructEvent secret req = Except.ok req.event := by
    simp [constructEvent, hsig]
  have hterm : isTerminal b.status = false := by rw [hst]; rfl
  refine ⟨setBookingStatus store req.event.bookingId bookingStatus.FAIL, ?_, ?_⟩
  · simp [handleIntentWebhook, hce, hkind, hfind, hterm]
  · rw [findBooking_set_same, hfind]
    exact ⟨_, rfl, rfl⟩

/-- C4: a webhook whose signature does not verify against the configured
secret is rejected with a BadRequestException, and the booking store seen
after the call is exactly the store seen before it. -/
theorem invalid_signature_rejected (secret : Nat) (store : List Booking)
    (req : WebhookRequest) (hsig : req.signatureHeader ≠ secret) :
    handleIntentWebhook secret store req =
      Except.error HandlerError.BadRequestException ∧
    postState store (handleIntentWebhook secret store req) = store := by
  have hce : constructEvent secret req =
      Except.error HandlerError.BadRequestException := by
    simp [constructEvent, hsig]
  exact ⟨by simp [handleIntentWebhook, hce],
    by simp [handleIntentWebhook, hce, postState]⟩

/-- C6: a verified webhook whose correlation id matches no stored booking
is acknowledged without error and returns the store unchanged. -/
theorem unknown_booking_acknowledged (secret : Nat) (store : List Booking)
    (req : WebhookRequest) (hsig : req.signatureHeader = secret)
    (hfind : findBooking store req.event.bookingId = none) :
    handleIntentWebhook secret store req = Except.ok store := by
  have hce : constructEvent secret req = Except.ok req.event := by
    simp [constructEvent, hsig]
  cases hk : req.event.kind with
  | other => simp [handleIntentWebhook, hce, hk]
  | success => simp [handleIntentWebhook, hce, hk, hfind]
  | failure => simp [handleIntentWebhook, hce, hk, hfind]

/-- C5: with a complete user profile, checkout creation succeeds and
appends exactly one new booking, in PENDING status, echoing the car, user,
times, amount and pickup location of the request. -/
theorem createCheckoutSession_pending (bookings : List Booking)
    (payments : List Payment) (newBookingId sessionId : Nat)
    (req : BookingRequest) (user : Option User)
    (huser : checkUserHaveEnoughInfo user = true) :
    ∃ res, createCheckoutSession bookings payments newBookingId sessionId
        req user = Except.ok res ∧
      ∃ nb : Booking,
        res.bookings = bookings ++ [nb] ∧
        nb.status = bookingStatus.PENDING ∧
        nb.id = newBookingId ∧
        nb.carId = req.carId ∧
        nb.userId = req.userId ∧
        nb.returnDateTime = req.returnDateTime ∧
        nb.receivedDateTime = req.receivedDateTime ∧
        nb.amount = req.amount ∧
        nb.pickUpLocationId = req.pickUpLocationId := by
  simp only [createCheckoutSession, huser, if_true]
  exact ⟨_, rfl, _, rfl, rfl, rfl, rfl, rfl, rfl, rfl, rfl, rfl⟩

/-! Concrete data for the witnesses. -/

def demoBooking : Booking :=
  { id := 1, carId := 2, userId := 3, pickUpLocationId := 4,
    returnDateTime := 5, receivedDateTime := 6, amount := 7,
    status := bookingStatus.PENDING }

def demoTerminalBooking : Booking :=
  { demoBooking with status := bookingStatus.SUCCESS }

def demoSuccessReq : WebhookRequest :=
  { event := { kind := EventKind.success, bookingId := 1 },
    signatureHeader := 99 }

def demoFailureReq : WebhookRequest :=
  { event := { kind := EventKind.failure, bookingId := 1 },
    signatureHeader := 99 }

def demoBadSigReq : WebhookRequest :=
  { event := { kind := EventKind.success, bookingId := 1 },
    signatureHeader := 7 }

def demoUser : User :=
  { name := some ['n'], dateOfBirth := some ['d'], phoneNumber := some ['p'] }

def demoBookingRequest : BookingRequest :=
  { userId := 3, carId := 2, pickUpLocationId := 4,
    returnDateTime := 5, receivedDateTime := 6, amount := 7 }

theorem handleIntentWebhook_success_idempotent_witness :
    ∃ store',
      handleIntentWebhook 99 [demoBooking] demoSuccessReq = Except.ok store' ∧
      (∃ b', findBooking store' demoSuccessReq.event.bookingId = some b' ∧
        b'.status = bookingStatus.SUCCESS) ∧
      handleIntentWebhook 99 store' demoSuccessReq = Except.ok store' :=
  handleIntentWebhook_success_idempotent 99 [demoBooking] demoSuccessReq
    demoBooking rfl rfl rfl rfl

theorem terminal_booking_unchanged_witness :
    findBooking (postState [demoTerminalBooking]
      (handleIntentWebhook 99 [demoTerminalBooking] demoFailureReq)) 1 =
      some demoTerminalBooking :=
  terminal_booking_unchanged 99 [demoTerminalBooking] demoFailureReq 1
    demoTerminalBooking rfl rfl

theorem handleIntentWebhook_failure_sets_fail_witness :
    ∃ store',
      handleIntentWebhook 99 [demoBooking] demoFailureReq = Except.ok store' ∧
      ∃ b', findBooking store' demoFailureReq.event.bookingId = some b' ∧
        b'.status = bookingStatus.FAIL :=
  handleIntentWebhook_failure_sets_fail 99 [demoBooking] demoFailureReq
    demoBooking rfl rfl rfl rfl

theorem invalid_signature_rejected_witness :
    handleIntentWebhook 99 [demoBooking] demoBadSigReq =
      Except.error HandlerError.BadRequestException ∧
    postState [demoBooking]
      (handleIntentWebhook 99 [demoBooking] demoBadSigReq) = [demoBooking] :=
  invalid_signature_rejected 99 [demoBooking] demoBadSigReq (by decide)

theorem unknown_booking_acknowledged_witness :
    handleIntentWebhook 99 [] demoSuccessReq = Except.ok [] :=
  unknown_booking_acknowledged 99 [] demoSuccessReq rfl rfl

theorem createCheckoutSession_pending_witness :
    ∃ res, createCheckoutSession [] [] 1 10 demoBookingRequest
        (some demoUser) = Except.ok res ∧
      ∃ nb : Booking,
        res.bookings = [] ++ [nb] ∧
        nb.status = bookingStatus.PENDING ∧
        nb.id = 1 ∧
        nb.carId = demoBookingRequest.carId ∧
        nb.userId = demoBookingRequest.userId ∧
        nb.returnDateTime = demoBookingRequest.returnDateTime ∧
        nb.receivedDateTime = demoBookingRequest.receivedDateTime ∧
        nb.amount = demoBookingRequest.amount ∧
        nb.pickUpLocationId = demoBookingRequest.pickUpLocationId :=
  createCheckoutSession_pending [] [] 1 10 demoBookingRequest
    (some demoUser) rfl
